import Mathlib

/-!
Verification of the Chuck 6502 CPU core (crates/cpu/src/lib.rs): the
timing-control unit (`Tcu`), the interrupt timing pipelines (`Pipeline`),
and the `Cpu::new` constructor.  Machine integers (`u8`, `u16`) are
embedded as `Nat` with explicit `% 2 ^ w` where overflow matters.
-/

namespace Chuck

/-- Embedding of the `State` enum: the partial instruction states `T0`..`T7`. -/
inductive State where
  | T0 | T1 | T2 | T3 | T4 | T5 | T6 | T7
deriving DecidableEq, Repr

/-- Embedding of `Tcu`: the Timing Control Unit, holding the current partial
instruction state. -/
structure Tcu where
  state : State
deriving DecidableEq, Repr

/-- Embedding of `Tcu::advance`: goto the next partial instruction state. -/
def Tcu.advance (t : Tcu) : Tcu :=
  { state :=
      match t.state with
      | State.T0 => State.T1
      | State.T1 => State.T2
      | State.T2 => State.T3
      | State.T3 => State.T4
      | State.T4 => State.T5
      | State.T5 => State.T6
      | State.T6 => State.T7
      | State.T7 => State.T0 }

/-- Embedding of `Tcu::reset`: reset the current partial instruction state
to `T7`. -/
def Tcu.reset (_t : Tcu) : Tcu :=
  { state := State.T7 }

/-- Embedding of `Pipeline<const MASK: u16>`: a 16-bit shift register.  The
`data` field is the `u16` register value, kept as a `Nat`; the compile-time
`MASK` parameter is passed explicitly to `is_serviceable`, the only operation
that reads it. -/
structure Pipeline where
  data : Nat
deriving DecidableEq, Repr

/-- Embedding of `Pipeline::register_with`: `if pin { self.data |= 0x100; }`. -/
def Pipeline.register_with (pin : Bool) (p : Pipeline) : Pipeline :=
  if pin then { data := p.data ||| 0x100 } else p

/-- Embedding of `Pipeline::is_serviceable`: `self.data & MASK != 0`. -/
def Pipeline.is_serviceable (mask : Nat) (p : Pipeline) : Bool :=
  p.data &&& mask != 0

/-- Embedding of `Pipeline::trim`: `self.data &= 0x3ff;`. -/
def Pipeline.trim (p : Pipeline) : Pipeline :=
  { data := p.data &&& 0x3ff }

/-- Embedding of `Pipeline::shift`: `self.data <<= 1;` on a `u16`, so the
result is reduced modulo `2 ^ 16` (the bit shifted out of the top is lost). -/
def Pipeline.shift (p : Pipeline) : Pipeline :=
  { data := p.data * 2 % 65536 }

/-- Embedding of `Pipeline::undo`: `self.data >>= 1;` (logical right shift). -/
def Pipeline.undo (p : Pipeline) : Pipeline :=
  { data := p.data / 2 }

/-- The const-generic argument of `Cpu::irq_pip : Pipeline<0x0400>`. -/
def irqMask : Nat := 0x0400

/-- The const-generic argument of `Cpu::nmi_pip : Pipeline<0xfc00>`. -/
def nmiMask : Nat := 0xfc00

/-- Embedding of the `Interrupt` enum. -/
inductive Interrupt where
  | Brk | Irq | Nmi | Res
deriving DecidableEq, Repr

/-- Embedding of the `BRK` constant: the opcode value of the `BRK`
instruction. -/
def BRK : Nat := 0x00

/-- Embedding of the `Flags` bitflags set over a `u8`. -/
structure Flags where
  bits : Nat
deriving DecidableEq, Repr

/-- Embedding of `Flags::empty()`. -/
def Flags.empty : Flags := { bits := 0 }

/-- Embedding of the `Pins` bitflags set over a `u8`. -/
structure Pins where
  bits : Nat
deriving DecidableEq, Repr

/-- Embedding of `Pins::empty()`. -/
def Pins.empty : Pins := { bits := 0 }

/-- Embedding of `Bus`: address bus, data bus and read/write direction. -/
structure Bus where
  addr : Nat
  data : Nat
  write : Bool
deriving DecidableEq, Repr

/-- Embedding of `Registers`: the programmer-visible registers. -/
structure Registers where
  flags : Flags
  a : Nat
  x : Nat
  y : Nat
  sp : Nat
  pc : Nat
deriving DecidableEq, Repr

/-- Embedding of the `Cpu` struct.  The two pipelines are distinct Rust types
(`Pipeline<0x0400>` and `Pipeline<0xfc00>`); here both are `Pipeline` values
and their masks `irqMask` / `nmiMask` are supplied at each use site. -/
structure Cpu where
  pins : Pins
  bus : Bus
  regs : Registers
  jammed : Bool
  schedule : Interrupt
  nmi_edge : Bool
  irq_pip : Pipeline
  nmi_pip : Pipeline
  adl : Nat
  opcode : Nat
  tcu : Tcu
deriving DecidableEq, Repr

/-- Embedding of `Cpu::new`. -/
def Cpu.new : Cpu where
  pins := Pins.empty
  bus := { addr := 0, data := 0, write := false }
  regs := { flags := Flags.empty, a := 0, x := 0, y := 0, sp := 0, pc := 0 }
  jammed := false
  schedule := Interrupt.Res
  nmi_edge := false
  irq_pip := { data := 0 }
  nmi_pip := { data := 0 }
  adl := 0
  opcode := BRK
  tcu := { state := State.T7 }

/-- Bits of the trim constant `0x3ff`: exactly the positions below 10. -/
lemma testBit_trim_const (i : Nat) : Nat.testBit 1023 i = decide (i < 10) := by
  have h : (1023 : Nat) = 2 ^ 10 - 1 := by norm_num
  rw [h, Nat.testBit_two_pow_sub_one]

/-- Any mask disjoint from the trim constant is masked to zero after a trim. -/
lemma trim_not_serviceable (mask : Nat) (hm : 1023 &&& mask = 0) (p : Pipeline) :
    Pipeline.is_serviceable mask (Pipeline.trim p) = false := by
  have h : p.data &&& 1023 &&& mask = 0 := by
    rw [Nat.and_assoc, hm, Nat.and_zero]
  simp [Pipeline.is_serviceable, Pipeline.trim, h]

/-- A shift followed by an undo restores any register value whose top bit is
clear. -/
lemma shift_then_undo (q : Pipeline) (h : q.data < 32768) :
    Pipeline.undo (Pipeline.shift q) = q := by
  obtain ⟨d⟩ := q
  simp only [Pipeline.shift, Pipeline.undo]
  congr 1
  have hlt : d * 2 < 65536 := by simp at h; omega
  rw [Nat.mod_eq_of_lt hlt]
  omega

/-- Register value of `k` shifts applied to the freshly registered bit. -/
lemma shift_iter_reg (k : Nat) :
    (Pipeline.shift^[k] { data := 256 }).data = 256 * 2 ^ k % 65536 := by
  induction k with
  | zero => norm_num
  | succ n ih =>
    rw [Function.iterate_succ_apply']
    show (Pipeline.shift _).data = _
    simp only [Pipeline.shift, ih]
    rw [Nat.mod_mul_mod, pow_succ, Nat.mul_assoc]

/-- Claim C5: for every TCU state `S`, applying `advance` exactly 8 times
returns the TCU to `S`: `advance` is a total cyclic function
`T0 → T1 → … → T7 → T0`. -/
theorem tcu_advance_eight_cycle (t : Tcu) : Tcu.advance^[8] t = t := by
  obtain ⟨s⟩ := t
  cases s <;> rfl

/-- Claim C6: for every TCU state, `reset` forces the state to `T7`, the
position immediately preceding the fetch position, so the very next `advance`
lands on the fixed opcode-fetch position `T0`: for all starting states,
`reset` followed by one `advance` yields the same fixed fetch state. -/
theorem tcu_reset_then_advance_is_fetch (t : Tcu) :
    (Tcu.reset t).state = State.T7 ∧
      Tcu.advance (Tcu.reset t) = { state := State.T0 } := by
  exact ⟨rfl, rfl⟩

/-- Claim C7: `register_with` leaves the register completely unchanged when
the pin is inactive; when active it sets exactly the fixed bit 8 (`0x100`,
near the input end of the left-shifting register) and changes no other bit;
it ORs rather than overwrites, so repeated calls before a shift are
idempotent. -/
theorem register_with_spec (p : Pipeline) (b : Bool) :
    Pipeline.register_with false p = p ∧
    (∀ i, (Pipeline.register_with true p).data.testBit i
        = (p.data.testBit i || decide (i = 8))) ∧
    Pipeline.register_with b (Pipeline.register_with b p)
      = Pipeline.register_with b p := by
  refine ⟨rfl, ?_, ?_⟩
  · intro i
    show (p.data ||| 256).testBit i = _
    rw [Nat.testBit_or]
    congr 1
    have h : (256 : Nat) = 2 ^ 8 := by norm_num
    rw [h, Nat.testBit_two_pow, decide_eq_decide]
    exact eq_comm
  · cases b
    · rfl
    · simp [Pipeline.register_with, Nat.or_assoc]

/-- Claim C8: `is_serviceable` returns true iff the bitwise AND of the
pipeline register with its recognition mask is non-zero.  In the embedding it
is a pure function of the pipeline (the Rust method takes `&self`), so it
modifies nothing. -/
theorem is_serviceable_iff_and_ne_zero (mask : Nat) (p : Pipeline) :
    Pipeline.is_serviceable mask p = decide (p.data &&& mask ≠ 0) := by
  by_cases h : p.data &&& mask = 0 <;> simp [Pipeline.is_serviceable, h]

/-- Claim C4: the IRQ pipeline's recognition mask `0x0400` has exactly one
bit set (position 10, a single-cycle window), and the NMI pipeline's mask
`0xfc00` is the contiguous range of bit positions 10 through 15 (the trailing
end of the 16-bit register, a multi-cycle window). -/
theorem masks_shape :
    (∀ i, irqMask.testBit i = decide (i = 10)) ∧
    (∀ i, nmiMask.testBit i = (decide (10 ≤ i) && decide (i ≤ 15))) := by
  constructor
  · intro i
    have h : irqMask = 2 ^ 10 := by norm_num [irqMask]
    rw [h, Nat.testBit_two_pow, decide_eq_decide]
    exact eq_comm
  · intro i
    have h : nmiMask = 2 ^ 10 * 63 := by norm_num [nmiMask]
    have h63 : (63 : Nat) = 2 ^ 6 - 1 := by norm_num
    rw [h, Nat.testBit_mul_pow_two, h63, Nat.testBit_two_pow_sub_one]
    by_cases h1 : 10 ≤ i <;> by_cases h2 : i ≤ 15 <;>
      simp [h1, h2, ge_iff_le] <;> omega

/-- Claim C10: for both concrete pipeline instances of the `Cpu` (IRQ mask
`0x0400`, NMI mask `0xfc00`), `trim` from any state makes `is_serviceable`
false, because trim clears every bit covered by either mask while preserving
the low input-side bits (positions below 10, including bit 8, the bit that
`register_with` sets), so requests registered but not yet in the window
survive a trim. -/
theorem trim_disables_service_preserves_low (p : Pipeline) :
    Pipeline.is_serviceable irqMask (Pipeline.trim p) = false ∧
    Pipeline.is_serviceable nmiMask (Pipeline.trim p) = false ∧
    (∀ i, (Pipeline.trim p).data.testBit i
        = (decide (i < 10) && p.data.testBit i)) ∧
    (Pipeline.trim (Pipeline.register_with true p)).data.testBit 8 = true := by
  refine ⟨trim_not_serviceable irqMask (by decide) p,
          trim_not_serviceable nmiMask (by decide) p, ?_, ?_⟩
  · intro i
    simp only [Pipeline.trim, Nat.testBit_and, testBit_trim_const]
    exact Bool.and_comm _ _
  · have h8 : Nat.testBit 256 8 = true := by decide
    have h10 : Nat.testBit 1023 8 = true := by decide
    simp [Pipeline.trim, Pipeline.register_with, Nat.testBit_and,
      Nat.testBit_or, h8, h10]

/-- Counterexample to claim C1 as stated: trim is claimed to zero every bit
below the fixed boundary and retain only the bits at or above the recognition
window; on the pipeline with register `0x0001` the bit below the boundary
survives trim, and on the register `0x0400` (the IRQ window bit itself) the
bit at the window is zeroed. -/
theorem trim_claim_counterexample :
    (Pipeline.trim { data := 1 }).data.testBit 0 = true ∧
    (Pipeline.trim { data := 1024 }).data.testBit 10 = false := by
  decide

/-- Claim C1 (amended): `trim` zeroes every bit at or above the fixed
boundary (position 10, the low end of the recognition windows) and retains
only the bits below it, so immediately after trim the just-recognized latched
assertion is cleared and `is_serviceable` is false for both pipeline masks. -/
theorem trim_clears_window (p : Pipeline) :
    (∀ i, (Pipeline.trim p).data.testBit (10 + i) = false) ∧
    Pipeline.is_serviceable irqMask (Pipeline.trim p) = false ∧
    Pipeline.is_serviceable nmiMask (Pipeline.trim p) = false := by
  refine ⟨?_, trim_not_serviceable irqMask (by decide) p,
          trim_not_serviceable nmiMask (by decide) p⟩
  intro i
  simp [Pipeline.trim, Nat.testBit_and, testBit_trim_const]

/-- Counterexample to claim C2 as stated: on the 16-bit register value
`0x8000` the shift loses the top bit, so `undo` after `shift` does not
restore the pre-`shift` state. -/
theorem shift_undo_counterexample :
    ¬ (Pipeline.undo (Pipeline.shift
          (Pipeline.register_with false { data := 32768 }))
        = Pipeline.register_with false { data := 32768 }) := by
  decide

/-- Claim C2 (amended): for any pipeline whose 16-bit register value has the
top bit clear (value below `0x8000`) and any boolean `b`, the sequence
`register_with b`, `shift`, `undo` yields a register bit-equal to the state
immediately after `register_with b`: shift followed by undo is a strict
inverse on such register values. -/
theorem shift_undo_inverse (p : Pipeline) (b : Bool) (h : p.data < 32768) :
    Pipeline.undo (Pipeline.shift (Pipeline.register_with b p))
      = Pipeline.register_with b p := by
  apply shift_then_undo
  cases b
  · exact h
  · show p.data ||| 256 < 32768
    have h15 : (32768 : Nat) = 2 ^ 15 := by norm_num
    rw [h15] at h ⊢
    exact Nat.or_lt_two_pow h (by norm_num)

/-- Witness for claim C2 (amended) at the concrete register value 5 with the
pin asserted. -/
theorem shift_undo_inverse_witness :
    ({ data := 5 } : Pipeline).data < 32768 ∧
    Pipeline.undo (Pipeline.shift (Pipeline.register_with true { data := 5 }))
      = Pipeline.register_with true { data := 5 } :=
  ⟨by decide, shift_undo_inverse { data := 5 } true (by decide)⟩

/-- Claim C3: starting from an empty IRQ pipeline, registering a single
asserted cycle and then shifting `k` times makes `is_serviceable` true
exactly when the latched bit (at position `8 + k`) sits under the IRQ mask
bit position 10, i.e. exactly at shift count 2, and false for every other
shift count, in particular after the bit has passed the window. -/
theorem irq_single_pulse_window (k : Nat) :
    Pipeline.is_serviceable irqMask
        (Pipeline.shift^[k] (Pipeline.register_with true { data := 0 }))
      = decide (k = 2) := by
  have hreg : Pipeline.register_with true { data := 0 }
      = ({ data := 256 } : Pipeline) := by decide
  rw [hreg]
  rcases Nat.lt_or_ge k 8 with h | h
  · interval_cases k <;> decide
  · obtain ⟨m, rfl⟩ := Nat.exists_eq_add_of_le h
    have hz : (Pipeline.shift^[8 + m] ({ data := 256 } : Pipeline)).data
        = 0 := by
      rw [shift_iter_reg]
      have he : 256 * 2 ^ (8 + m) = 65536 * 2 ^ m := by
        rw [pow_add]; ring
      rw [he, Nat.mul_mod_right]
    have hne : ¬ (8 + m = 2) := by omega
    simp [Pipeline.is_serviceable, hz, hne, irqMask]

/-- Claim C9: `Cpu::new` constructs a CPU with empty pins and flags, zeroed
bus and registers, both interrupt pipelines empty (hence neither
serviceable), the opcode equal to the software-break opcode `BRK = 0x00`, the
jammed flag false, and the TCU at `T7`, the pre-fetch position from which one
`advance` reaches the fetch position `T0`. -/
theorem cpu_new_spec :
    Cpu.new.pins = Pins.empty ∧
    Cpu.new.regs.flags = Flags.empty ∧
    Cpu.new.bus.addr = 0 ∧ Cpu.new.bus.data = 0 ∧
    Cpu.new.bus.write = false ∧
    Cpu.new.regs.a = 0 ∧ Cpu.new.regs.x = 0 ∧ Cpu.new.regs.y = 0 ∧
    Cpu.new.regs.sp = 0 ∧ Cpu.new.regs.pc = 0 ∧
    Cpu.new.irq_pip.data = 0 ∧ Cpu.new.nmi_pip.data = 0 ∧
    Pipeline.is_serviceable irqMask Cpu.new.irq_pip = false ∧
    Pipeline.is_serviceable nmiMask Cpu.new.nmi_pip = false ∧
    Cpu.new.opcode = BRK ∧ BRK = 0 ∧
    Cpu.new.jammed = false ∧
    Cpu.new.tcu.state = State.T7 ∧
    Tcu.advance Cpu.new.tcu = { state := State.T0 } := by
  decide

end Chuck
